import Mathlib

/-!
Verification of the multi-endpoint RPC probing and balance-aggregation
routine of `verificar_balance.py` (with the companion diagnostic script
`Diagnostico avanzado.py`).  The Python functions are shallowly embedded:
HTTP transport behaviour is an explicit input (`HttpOutcome`), parsed JSON
bodies are a `Json` tree, Python floats are modelled as exact rationals
(`ℚ`), and every Python function that can swallow an exception is a total
Lean function returning `Option` (the `except` blocks of the source turn
every per-endpoint failure into the value `None`).
-/

/-- Parsed JSON values, as produced by `response.json()` in the source. -/
inductive Json where
  | null : Json
  | bool : Bool → Json
  | int : Int → Json
  | str : String → Json
  | arr : List Json → Json
  | obj : List (String × Json) → Json
deriving Repr

/-- Field access `data[k]` guarded by `k in data`: yields the value when
`j` is an object with field `k`, otherwise nothing (on non-dict values the
Python membership test is false or raises, and every raise in
`check_balance` is caught and becomes `None`). -/
def Json.getField : Json → String → Option Json
  | .obj fields, k => fields.lookup k
  | _, _ => none

/-- What the HTTP transport did for one endpoint: the possible outcomes of
the `requests.post` call in `check_balance` (lines 49–59 of
`verificar_balance.py`).  `got` carries an HTTP status code and the parsed
JSON body; `gotInvalidJson` is a response whose body `response.json()`
fails to parse. -/
inductive HttpOutcome where
  | timeout : HttpOutcome
  | requestException : String → HttpOutcome
  | otherException : String → HttpOutcome
  | got : Nat → Json → HttpOutcome
  | gotInvalidJson : Nat → HttpOutcome
deriving Repr

/-- `LAMPORTS_PER_SOL = 1_000_000_000` (line 20). -/
def LAMPORTS_PER_SOL : Int := 1000000000

/-- Lamports-to-SOL conversion `balance_lamports / LAMPORTS_PER_SOL`
(line 63); Python float division modelled as exact division in ℚ. -/
def lamports_to_sol (lam : Int) : ℚ :=
  (lam : ℚ) / (LAMPORTS_PER_SOL : ℚ)

/-- Embedding of `check_balance` (lines 22–86 of `verificar_balance.py`),
parameterised by the transport outcome.  Success requires HTTP status 200
and a body with `"result" in data and "value" in data["result"]`, in which
case the pair `(balance_lamports, balance_sol)` is returned; every other
path (non-200 status, missing/invalid `result`, unparseable body, timeout,
connection error, any other exception — lines 70–86) returns `None`.  A
non-integer `value` would make the division on line 63 raise and be caught
by the bare `except` (line 84), hence also `None`.  Print statements and
timing are dropped. -/
def check_balance (net : HttpOutcome) : Option (Int × ℚ) :=
  match net with
  | .got 200 body =>
    match body.getField "result" with
    | some r =>
      match r.getField "value" with
      | some (.int lam) => some (lam, lamports_to_sol lam)
      | _ => none
    | none => none
  | _ => none

/-- Transport-level exceptions: the cases caught by the three `except`
clauses of `check_balance` (lines 78–86) before any HTTP response is
classified, plus an unparseable body. -/
def isTransportException : HttpOutcome → Bool
  | .timeout => true
  | .requestException _ => true
  | .otherException _ => true
  | .gotInvalidJson _ => true
  | .got _ _ => false

/-- The per-endpoint outcomes of the probing loop in `main`
(lines 134–139): one `check_balance` call, hence one `Option` outcome, per
endpoint, in list order.  `net` maps each endpoint URL to its transport
behaviour. -/
def probeOutcomes (net : String → HttpOutcome) (endpoints : List String) :
    List (Option (Int × ℚ)) :=
  endpoints.map (fun e => check_balance (net e))

/-- The accumulating loop of `main` (lines 131–139): successful results are
appended to `balances` and their URLs to `working_rpcs`; `None` results are
skipped (`if result:` is true exactly for non-`None`, a pair being always
truthy).  The `time.sleep(0.5)` pause is cosmetic and dropped. -/
def probeLoop (net : String → HttpOutcome) :
    List String → List (Int × ℚ) × List String
  | [] => ([], [])
  | e :: rest =>
    let result := check_balance (net e)
    let acc := probeLoop net rest
    match result with
    | some r => (r :: acc.1, e :: acc.2)
    | none => acc

/-- Python `min` over a list, left-biased fold from the first element
(total here with junk value 0 on `[]`, a case the source never reaches: it
returns before line 159 when `balances` is empty). -/
def listMin : List ℚ → ℚ
  | [] => 0
  | x :: xs => xs.foldl min x

/-- Python `max` over a list, left-biased fold from the first element. -/
def listMax : List ℚ → ℚ
  | [] => 0
  | x :: xs => xs.foldl max x

/-- The summary statistics of `main` (lines 146–160): on an empty
`balances` list the script prints guidance and returns (lines 146–154),
modelled as `none`; otherwise `balance_values = [b[1] for b in balances]`
and the triple `(avg, min, max)` is computed (lines 157–160). -/
def aggregate (balances : List (Int × ℚ)) : Option (ℚ × ℚ × ℚ) :=
  match balances with
  | [] => none
  | _ =>
    let balance_values := balances.map (fun b => b.2)
    some (balance_values.sum / (balance_values.length : ℚ),
          listMin balance_values, listMax balance_values)

/-- The dict returned by `estimate_fees` (lines 95–107). -/
structure FeeEstimate where
  blocks : Int
  price_per_block : ℚ
  subtotal : ℚ
  estimated_fee : ℚ
  total : ℚ
deriving Repr, DecidableEq

/-- Embedding of `estimate_fees` (lines 95–107).  The Python default
`price_per_block = 0.001` is passed explicitly here.  `estimated_fee` is
the constant `0.000005`. -/
def estimate_fees (num_blocks : Int) (price_per_block : ℚ) : FeeEstimate :=
  let total_price : ℚ := (num_blocks : ℚ) * price_per_block
  let estimated_fee : ℚ := 5 / 1000000
  let total_needed : ℚ := total_price + estimated_fee
  ⟨num_blocks, price_per_block, total_price, estimated_fee, total_needed⟩

/-- The affordability test of `main` (line 189):
`estimate["total"] <= avg_balance`. -/
def affordable (balance : ℚ) (est : FeeEstimate) : Bool :=
  decide (est.total ≤ balance)

/-! Concrete fixtures used to exercise the definitions. -/

/-- A well-formed `getBalance` response body with 1.5 SOL in lamports. -/
def exBody : Json :=
  Json.obj [("result", Json.obj [("value", Json.int 1500000000)])]

/-- A JSON-RPC error response body (no `result` field). -/
def errBody : Json :=
  Json.obj [("error", Json.obj [("code", Json.int (-32602)),
                                ("message", Json.str "Invalid params")])]

/-- A body with neither `result` nor `error`. -/
def emptyBody : Json := Json.obj [("jsonrpc", Json.str "2.0")]

/-- A demo transport where the first endpoint times out and the second
answers with `exBody`. -/
def demoNet : String → HttpOutcome :=
  fun e => if e = "https://api.mainnet-beta.solana.com" then
    HttpOutcome.timeout
  else
    HttpOutcome.got 200 exBody

/-! Helper lemmas about the left-biased fold computing Python `min`/`max`. -/

theorem foldl_min_le_init (xs : List ℚ) (a : ℚ) : xs.foldl min a ≤ a := by
  induction xs generalizing a with
  | nil => simp
  | cons x xs ih =>
    exact le_trans (ih (min a x)) (min_le_left a x)

theorem foldl_min_le_mem (xs : List ℚ) (a v : ℚ) (hv : v ∈ xs) :
    xs.foldl min a ≤ v := by
  induction xs generalizing a with
  | nil => cases hv
  | cons x xs ih =>
    rcases List.mem_cons.mp hv with h | h
    · subst h
      exact le_trans (foldl_min_le_init xs (min a v)) (min_le_right a v)
    · exact ih (min a x) h

theorem foldl_min_mem (xs : List ℚ) (a : ℚ) :
    xs.foldl min a = a ∨ xs.foldl min a ∈ xs := by
  induction xs generalizing a with
  | nil => exact Or.inl rfl
  | cons x xs ih =>
    rcases ih (min a x) with h | h
    · rcases min_choice a x with hax | hax
      · exact Or.inl (by rw [List.foldl_cons, h, hax])
      · exact Or.inr (by rw [List.foldl_cons, h, hax]; exact List.mem_cons_self x xs)
    · exact Or.inr (List.mem_cons_of_mem x h)

theorem foldl_max_init_le (xs : List ℚ) (a : ℚ) : a ≤ xs.foldl max a := by
  induction xs generalizing a with
  | nil => simp
  | cons x xs ih =>
    exact le_trans (le_max_left a x) (ih (max a x))

theorem foldl_max_mem_le (xs : List ℚ) (a v : ℚ) (hv : v ∈ xs) :
    v ≤ xs.foldl max a := by
  induction xs generalizing a with
  | nil => cases hv
  | cons x xs ih =>
    rcases List.mem_cons.mp hv with h | h
    · subst h
      exact le_trans (le_max_right a v) (foldl_max_init_le xs (max a v))
    · exact ih (max a x) h

theorem foldl_max_mem (xs : List ℚ) (a : ℚ) :
    xs.foldl max a = a ∨ xs.foldl max a ∈ xs := by
  induction xs generalizing a with
  | nil => exact Or.inl rfl
  | cons x xs ih =>
    rcases ih (max a x) with h | h
    · rcases max_choice a x with hax | hax
      · exact Or.inl (by rw [List.foldl_cons, h, hax])
      · exact Or.inr (by rw [List.foldl_cons, h, hax]; exact List.mem_cons_self x xs)
    · exact Or.inr (List.mem_cons_of_mem x h)

theorem listMin_mem (x : ℚ) (xs : List ℚ) : listMin (x :: xs) ∈ x :: xs := by
  rcases foldl_min_mem xs x with h | h
  · rw [listMin, h]; exact List.mem_cons_self x xs
  · exact List.mem_cons_of_mem x (by rw [listMin]; exact h)

theorem listMin_le (x : ℚ) (xs : List ℚ) (v : ℚ) (hv : v ∈ x :: xs) :
    listMin (x :: xs) ≤ v := by
  rcases List.mem_cons.mp hv with h | h
  · subst h; exact foldl_min_le_init xs v
  · exact foldl_min_le_mem xs x v h

theorem listMax_mem (x : ℚ) (xs : List ℚ) : listMax (x :: xs) ∈ x :: xs := by
  rcases foldl_max_mem xs x with h | h
  · rw [listMax, h]; exact List.mem_cons_self x xs
  · exact List.mem_cons_of_mem x (by rw [listMax]; exact h)

theorem le_listMax (x : ℚ) (xs : List ℚ) (v : ℚ) (hv : v ∈ x :: xs) :
    v ≤ listMax (x :: xs) := by
  rcases List.mem_cons.mp hv with h | h
  · subst h; exact foldl_max_init_le xs v
  · exact foldl_max_mem_le xs x v h

theorem length_mul_le_sum (l : List ℚ) (m : ℚ) (h : ∀ v ∈ l, m ≤ v) :
    (l.length : ℚ) * m ≤ l.sum := by
  induction l with
  | nil => simp
  | cons x xs ih =>
    have h1 := ih (fun v hv => h v (List.mem_cons_of_mem x hv))
    have h2 := h x (List.mem_cons_self x xs)
    simp only [List.length_cons, List.sum_cons]
    push_cast
    linarith

theorem sum_le_length_mul (l : List ℚ) (m : ℚ) (h : ∀ v ∈ l, v ≤ m) :
    l.sum ≤ (l.length : ℚ) * m := by
  induction l with
  | nil => simp
  | cons x xs ih =>
    have h1 := ih (fun v hv => h v (List.mem_cons_of_mem x hv))
    have h2 := h x (List.mem_cons_self x xs)
    simp only [List.length_cons, List.sum_cons]
    push_cast
    linarith

/-! The claims. -/

/-- Claim C1: for every non-empty ordered list of endpoints, the probing
loop performs exactly one `check_balance` call per endpoint and hence
yields exactly one outcome per endpoint, in input order, whatever each
endpoint's transport behaviour is: the caller never receives fewer
outcomes than endpoints supplied. -/
theorem probe_one_result_per_endpoint (net : String → HttpOutcome)
    (endpoints : List String) (hne : endpoints ≠ []) :
    (probeOutcomes net endpoints).length = endpoints.length ∧
    ∀ (i : Nat) (h : i < endpoints.length),
      (probeOutcomes net endpoints)[i]? =
        some (check_balance (net (endpoints.get ⟨i, h⟩))) := by
  refine ⟨by simp [probeOutcomes], ?_⟩
  intro i h
  simp [probeOutcomes, List.getElem?_map, List.getElem?_eq_getElem h]

/-- Witness for C1 at a concrete two-endpoint list where the first
endpoint times out. -/
theorem probe_one_result_per_endpoint_witness :
    (probeOutcomes demoNet
      ["https://api.mainnet-beta.solana.com", "https://rpc.ankr.com/solana"]).length =
      (["https://api.mainnet-beta.solana.com", "https://rpc.ankr.com/solana"] :
        List String).length :=
  (probe_one_result_per_endpoint demoNet
    ["https://api.mainnet-beta.solana.com", "https://rpc.ankr.com/solana"]
    (by simp)).1

/-- Claim C2: a per-endpoint transport failure (timeout, connection error,
or any other exception raised while probing one endpoint) is recorded as
the failure value `none` rather than escaping `check_balance`, and every
endpoint of the list — in particular every endpoint after the failing one —
still gets its own outcome from its own `check_balance` call. -/
theorem transport_failure_not_fatal (net : String → HttpOutcome)
    (endpoints : List String) (k : Nat) (hk : k < endpoints.length)
    (hfail : isTransportException (net (endpoints.get ⟨k, hk⟩)) = true) :
    check_balance (net (endpoints.get ⟨k, hk⟩)) = none ∧
    ∀ (j : Nat) (hj : j < endpoints.length),
      (probeOutcomes net endpoints)[j]? =
        some (check_balance (net (endpoints.get ⟨j, hj⟩))) := by
  constructor
  · cases hout : net (endpoints.get ⟨k, hk⟩) with
    | timeout => rfl
    | requestException m => rfl
    | otherException m => rfl
    | gotInvalidJson s => rfl
    | got s body => rw [hout] at hfail; cases hfail
  · intro j hj
    simp [probeOutcomes, List.getElem?_map, List.getElem?_eq_getElem hj]

/-- Witness for C2: the first endpoint of the demo transport times out,
yet both endpoints have an outcome. -/
theorem transport_failure_not_fatal_witness :
    check_balance (demoNet
      (["https://api.mainnet-beta.solana.com", "https://rpc.ankr.com/solana"].get
        ⟨0, by simp⟩)) = none :=
  (transport_failure_not_fatal demoNet
    ["https://api.mainnet-beta.solana.com", "https://rpc.ankr.com/solana"]
    0 (by simp) (by rfl)).1

/-- Claim C3: when every endpoint's probe fails, the accumulated `balances`
list is empty and the summary step takes the explicit no-data branch
(`none`) instead of raising: the script prints guidance and returns
normally. -/
theorem all_failures_give_empty_aggregate (net : String → HttpOutcome)
    (endpoints : List String)
    (hall : ∀ e ∈ endpoints, check_balance (net e) = none) :
    (probeLoop net endpoints).1 = [] ∧
    aggregate (probeLoop net endpoints).1 = none := by
  have h1 : (probeLoop net endpoints).1 = [] := by
    induction endpoints with
    | nil => rfl
    | cons e rest ih =>
      have he := hall e (List.mem_cons_self e rest)
      have hrest := ih (fun x hx => hall x (List.mem_cons_of_mem e hx))
      simp only [probeLoop, he]
      exact hrest
  refine ⟨h1, by rw [h1]; rfl⟩

/-- Witness for C3: a transport that times out on every endpoint yields an
empty balance list and the no-data aggregate. -/
theorem all_failures_give_empty_aggregate_witness :
    aggregate (probeLoop (fun _ => HttpOutcome.timeout)
      ["https://api.mainnet-beta.solana.com", "https://rpc.ankr.com/solana"]).1 =
      none :=
  (all_failures_give_empty_aggregate (fun _ => HttpOutcome.timeout)
    ["https://api.mainnet-beta.solana.com", "https://rpc.ankr.com/solana"]
    (fun e _ => rfl)).2

/-- Claim C4: for every non-empty balance list the summary is `some`
triple whose first component is the sum of the SOL values divided by their
count and whose second and third components are characterised as the
minimum and maximum of the SOL values; in particular the samples
`[1.0, 1.0, 1.0]` give average=min=max=1 and `[0.9, 1.0, 1.1]` give
average=1, min=0.9, max=1.1. -/
theorem aggregate_avg_min_max :
    (∀ (balances : List (Int × ℚ)), balances ≠ [] →
      ∃ a mn mx, aggregate balances = some (a, mn, mx) ∧
        a = (balances.map (fun b => b.2)).sum /
              ((balances.map (fun b => b.2)).length : ℚ) ∧
        mn ∈ balances.map (fun b => b.2) ∧
        (∀ v ∈ balances.map (fun b => b.2), mn ≤ v) ∧
        mx ∈ balances.map (fun b => b.2) ∧
        (∀ v ∈ balances.map (fun b => b.2), v ≤ mx)) ∧
    aggregate [(1000000000, 1), (1000000000, 1), (1000000000, 1)] =
      some (1, 1, 1) ∧
    aggregate [(900000000, 9/10), (1000000000, 1), (1100000000, 11/10)] =
      some (1, 9/10, 11/10) := by
  refine ⟨?_, ?_, ?_⟩
  · intro balances hne
    match balances with
    | b :: bs =>
      have hmap : (b :: bs).map (fun x : Int × ℚ => x.2) =
          b.2 :: bs.map (fun x : Int × ℚ => x.2) := rfl
      refine ⟨_, _, _, rfl, rfl, ?_, ?_, ?_, ?_⟩
      · rw [hmap]; exact listMin_mem _ _
      · rw [hmap]; exact fun v hv => listMin_le _ _ v hv
      · rw [hmap]; exact listMax_mem _ _
      · rw [hmap]; exact fun v hv => le_listMax _ _ v hv
  · simp [aggregate, listMin, listMax]
    norm_num
  · simp [aggregate, listMin, listMax]
    norm_num

/-- Witness for C4 at the concrete two-sample list `[1.2, 1.0]`. -/
theorem aggregate_avg_min_max_witness :
    ∃ a mn mx,
      aggregate [(1200000000, 12/10), (1000000000, 1)] = some (a, mn, mx) ∧
      a = (([(1200000000, 12/10), (1000000000, 1)] : List (Int × ℚ)).map
            (fun b => b.2)).sum /
          ((([(1200000000, 12/10), (1000000000, 1)] : List (Int × ℚ)).map
            (fun b => b.2)).length : ℚ) ∧
      mn ∈ ([(1200000000, 12/10), (1000000000, 1)] : List (Int × ℚ)).map
            (fun b => b.2) ∧
      (∀ v ∈ ([(1200000000, 12/10), (1000000000, 1)] : List (Int × ℚ)).map
            (fun b => b.2), mn ≤ v) ∧
      mx ∈ ([(1200000000, 12/10), (1000000000, 1)] : List (Int × ℚ)).map
            (fun b => b.2) ∧
      (∀ v ∈ ([(1200000000, 12/10), (1000000000, 1)] : List (Int × ℚ)).map
            (fun b => b.2), v ≤ mx) :=
  aggregate_avg_min_max.1 [(1200000000, 12/10), (1000000000, 1)] (by simp)

/-- Claim C9: for every non-empty balance list the computed aggregate
satisfies min ≤ average ≤ max over the SOL values. -/
theorem aggregate_min_le_avg_le_max (balances : List (Int × ℚ))
    (hne : balances ≠ []) :
    ∃ a mn mx, aggregate balances = some (a, mn, mx) ∧ mn ≤ a ∧ a ≤ mx := by
  match balances with
  | b :: bs =>
    have hlen0 : 0 < ((b :: bs).map (fun x : Int × ℚ => x.2)).length := by simp
    have hlen : (0 : ℚ) < (((b :: bs).map (fun x : Int × ℚ => x.2)).length : ℚ) := by
      exact_mod_cast hlen0
    have hmap : (b :: bs).map (fun x : Int × ℚ => x.2) =
        b.2 :: bs.map (fun x : Int × ℚ => x.2) := rfl
    refine ⟨_, _, _, rfl, ?_, ?_⟩
    · rw [le_div_iff₀ hlen, mul_comm]
      apply length_mul_le_sum
      intro v hv
      rw [hmap] at hv ⊢
      exact listMin_le _ _ v hv
    · rw [div_le_iff₀ hlen, mul_comm]
      apply sum_le_length_mul
      intro v hv
      rw [hmap] at hv ⊢
      exact le_listMax _ _ v hv

/-- Witness for C9 at the concrete list `[0.9, 1.1]`. -/
theorem aggregate_min_le_avg_le_max_witness :
    ∃ a mn mx,
      aggregate [(900000000, 9/10), (1100000000, 11/10)] = some (a, mn, mx) ∧
      mn ≤ a ∧ a ≤ mx :=
  aggregate_min_le_avg_le_max [(900000000, 9/10), (1100000000, 11/10)]
    (by simp)

/-- Claim C5: for every quantity, `estimate_fees` satisfies
subtotal = quantity * unitPrice and total = subtotal + feePerTransaction,
and the affordability test of `main` holds exactly when total ≤ balance;
with balance 0.5, unit price 0.01 and fee 0.000005, quantity 1 gives
total 0.010005 and is affordable while quantity 50 gives total 0.500005
and is not. -/
theorem affordability_formula :
    (∀ (q : Int) (p b : ℚ),
      (estimate_fees q p).subtotal = (q : ℚ) * p ∧
      (estimate_fees q p).total =
        (estimate_fees q p).subtotal + (estimate_fees q p).estimated_fee ∧
      (affordable b (estimate_fees q p) = true ↔ (estimate_fees q p).total ≤ b)) ∧
    (estimate_fees 1 (1/100)).total = 10005/1000000 ∧
    affordable (1/2) (estimate_fees 1 (1/100)) = true ∧
    (estimate_fees 50 (1/100)).total = 500005/1000000 ∧
    affordable (1/2) (estimate_fees 50 (1/100)) = false := by
  refine ⟨?_, ?_, ?_, ?_, ?_⟩
  · intro q p b
    refine ⟨rfl, rfl, ?_⟩
    simp [affordable]
  · simp [estimate_fees]; norm_num
  · simp [affordable, estimate_fees]; norm_num
  · simp [estimate_fees]; norm_num
  · simp [affordable, estimate_fees]; norm_num

/-- Claim C6: every successful outcome of `check_balance` carries a SOL
amount that is exactly the integer lamports value divided by the constant
1,000,000,000, with no prior rounding; in particular 1,500,000,000
lamports convert to 1.5 SOL and 0 lamports to 0 SOL. -/
theorem sol_conversion_exact :
    (∀ (net : HttpOutcome) (lam : Int) (sol : ℚ),
      check_balance net = some (lam, sol) → sol = (lam : ℚ) / 1000000000) ∧
    lamports_to_sol 1500000000 = 3/2 ∧ lamports_to_sol 0 = 0 := by
  refine ⟨?_, ?_, ?_⟩
  · intro net lam sol h
    unfold check_balance at h
    split at h
    · rename_i body
      split at h
      · rename_i r hr
        split at h
        · rename_i lam2 hv
          rw [Option.some_inj] at h
          have h1 : lam2 = lam := congrArg Prod.fst h
          have h2 : lamports_to_sol lam2 = sol := congrArg Prod.snd h
          rw [h1] at h2
          rw [← h2]
          unfold lamports_to_sol LAMPORTS_PER_SOL
          norm_num
        · cases h
      · cases h
    · cases h
  · unfold lamports_to_sol LAMPORTS_PER_SOL; norm_num
  · unfold lamports_to_sol LAMPORTS_PER_SOL; norm_num

/-- Witness for C6: the demo `getBalance` body with 1,500,000,000 lamports
yields exactly 1.5 SOL. -/
theorem sol_conversion_exact_witness :
    (3 : ℚ)/2 = ((1500000000 : Int) : ℚ) / 1000000000 :=
  sol_conversion_exact.1 (HttpOutcome.got 200 exBody) 1500000000 (3/2)
    (by simp [check_balance, exBody, Json.getField, lamports_to_sol,
              LAMPORTS_PER_SOL, List.lookup]
        norm_num)

/-- Claim C10: the total returned by `estimate_fees` is monotone in the
quantity for a fixed non-negative price, and the `estimated_fee` component
is the constant 0.000005 for every input. -/
theorem estimate_fees_monotone :
    (∀ (n1 n2 : Int) (p : ℚ), 0 ≤ n1 → n1 ≤ n2 → 0 ≤ p →
      (estimate_fees n1 p).total ≤ (estimate_fees n2 p).total) ∧
    (∀ (n : Int) (p : ℚ), (estimate_fees n p).estimated_fee = 5/1000000) := by
  constructor
  · intro n1 n2 p hn1 h12 hp
    show (n1 : ℚ) * p + 5/1000000 ≤ (n2 : ℚ) * p + 5/1000000
    have hc : (n1 : ℚ) ≤ (n2 : ℚ) := by exact_mod_cast h12
    have := mul_le_mul_of_nonneg_right hc hp
    linarith
  · intro n p
    rfl

/-- Witness for C10: total for 1 block is at most total for 10 blocks at
the default price 0.001. -/
theorem estimate_fees_monotone_witness :
    (estimate_fees 1 (1/1000)).total ≤ (estimate_fees 10 (1/1000)).total :=
  estimate_fees_monotone.1 1 10 (1/1000) (by norm_num) (by norm_num)
    (by norm_num)

/-- Counterexample to claim C7: for the concrete HTTP 200 response whose
body is the JSON-RPC error `errBody`, `check_balance` yields exactly the
same outcome as a transport-level timeout, namely the failure value
`none` — there is no distinct RpcError variant in the code; all failures
collapse to `None`. -/
theorem rpc_error_not_distinct_counterexample :
    check_balance (HttpOutcome.got 200 errBody) =
      check_balance HttpOutcome.timeout ∧
    check_balance (HttpOutcome.got 200 errBody) = none := ⟨rfl, rfl⟩

/-- Claim C7 (amended): for every HTTP 200 response whose parsed JSON body
contains an `error` field and no `result` field, `check_balance` records
the outcome as the generic failure value `none` — the very value produced
for transport failures, not a distinct RpcError variant — and never as a
success. -/
theorem rpc_error_recorded_as_failure (body : Json) (err : Json)
    (herr : body.getField "error" = some err)
    (hres : body.getField "result" = none) :
    check_balance (HttpOutcome.got 200 body) = none ∧
    check_balance (HttpOutcome.got 200 body) =
      check_balance HttpOutcome.timeout ∧
    ∀ lam sol, check_balance (HttpOutcome.got 200 body) ≠ some (lam, sol) := by
  have hnone : check_balance (HttpOutcome.got 200 body) = none := by
    simp only [check_balance, hres]
  exact ⟨hnone, hnone.trans rfl, fun lam sol h => by rw [hnone] at h; cases h⟩

/-- Witness for the amended C7 at the concrete error body `errBody`. -/
theorem rpc_error_recorded_as_failure_witness :
    check_balance (HttpOutcome.got 200 errBody) = none :=
  (rpc_error_recorded_as_failure errBody
    (Json.obj [("code", Json.int (-32602)), ("message", Json.str "Invalid params")])
    rfl rfl).1

/-- Claim C8: for every HTTP 200 response whose parsed JSON body contains
neither a `result` field nor an `error` field, `check_balance` records the
failure value `none` — the same outcome as a transport failure, i.e. the
TransportFailure classification — and never a success. -/
theorem malformed_response_never_success (body : Json)
    (hres : body.getField "result" = none)
    (herr : body.getField "error" = none) :
    check_balance (HttpOutcome.got 200 body) = none ∧
    check_balance (HttpOutcome.got 200 body) =
      check_balance HttpOutcome.timeout ∧
    ∀ lam sol, check_balance (HttpOutcome.got 200 body) ≠ some (lam, sol) := by
  have hnone : check_balance (HttpOutcome.got 200 body) = none := by
    simp only [check_balance, hres]
  exact ⟨hnone, hnone.trans rfl, fun lam sol h => by rw [hnone] at h; cases h⟩

/-- Witness for C8 at the concrete body `{"jsonrpc": "2.0"}`. -/
theorem malformed_response_never_success_witness :
    check_balance (HttpOutcome.got 200 emptyBody) = none :=
  (malformed_response_never_success emptyBody rfl rfl).1
